import Mathlib

/-!
Verification development for the line-fortune-bot repository: a shallow
embedding, in Lean 4, of the bot's entitlement / payment-gating logic,
conversation-history handling, reply delivery and signed-access-code
scheme, together with theorems settling the specification claims.

Conventions used throughout the embedding:
* JavaScript numbers that hold `Date.now()` values or millisecond spans
  are modelled as `Nat`.
* A JavaScript value that may be `undefined`/`null` is an `Option`.
  JavaScript truthiness on strings ("" is falsy) is modelled explicitly
  wherever the source relies on it.
* External HTTP calls (order fetch, payment check, LLM completion) are
  passed in as oracle arguments of `Except`/`Option` type: the function
  under test receives the outcome the network would have produced.
* Redis is modelled as explicit state threaded through each handler:
  association lists keyed by the same keys the source uses.
* Outbound LINE messages are modelled symbolically: one constructor per
  distinct reply text the source can send; doc comments give the source
  text where a claim depends on it.
-/

/-! ## Orders and the paid determination (src/unnamed/part_002 lines 109-135,
part_003 lines 93-98 and 125-129) -/

/-- A line item of a STORES order: `product_id`, `sku`, `handle` may each be
absent (`undefined`) or present; the source treats `""` as falsy too. -/
structure LineItem where
  productId : Option String
  sku : Option String
  handle : Option String
deriving DecidableEq, Repr

/-- A fetched order record: the fields the gating logic reads.
`status` is `(order?.status || "")`: an absent status is the empty string. -/
structure Order where
  status : String
  lineItems : List LineItem
deriving DecidableEq, Repr

/-- ASCII lowercasing of one character, as JavaScript `toLowerCase` acts
on the ASCII strings this code handles. -/
def lowerChar (c : Char) : Char :=
  if 65 ≤ c.toNat ∧ c.toNat ≤ 90 then Char.ofNat (c.toNat + 32) else c

/-- ASCII uppercasing of one character (JavaScript `toUpperCase`). -/
def upperChar (c : Char) : Char :=
  if 97 ≤ c.toNat ∧ c.toNat ≤ 122 then Char.ofNat (c.toNat - 32) else c

/-- `s.toLowerCase()` on ASCII strings. -/
def lowerStr (s : String) : String :=
  ⟨s.data.map lowerChar⟩

/-- `s.toUpperCase()` on ASCII strings. -/
def upperStr (s : String) : String :=
  ⟨s.data.map upperChar⟩

/-- JavaScript `a || b` on possibly-absent strings: the first operand wins
when it is truthy (present and nonempty). -/
def jsOrStr : Option String → Option String → Option String
  | some s, b => if s = "" then b else some s
  | none, b => b

/-- `li.product_id || li.sku || li.handle` from `extractPurchasedSkus`. -/
def lineItemId (li : LineItem) : Option String :=
  jsOrStr li.productId (jsOrStr li.sku li.handle)

/-- `extractPurchasedSkus` (part_002 lines 123-126): map each line item to
its first truthy identifier and `.filter(Boolean)` the results. -/
def extractPurchasedSkus (o : Order) : List String :=
  (o.lineItems.map lineItemId).filterMap fun x =>
    match x with
    | some s => if s = "" then none else some s
    | none => none

/-- `isPaid` (part_002 lines 109-115): lowercase the status, accept the
listed paid-like states, and reject cancel/refund states. -/
def isPaid (o : Order) : Bool :=
  let st := lowerStr o.status
  let ok := ["paid", "captured", "shipped", "fulfilled"].contains st
  let ng := ["canceled", "cancelled", "refunded"].contains st
  ok && !ng

/-- `paidStatus` (part_003 lines 93-98): same determination as `isPaid`
with the reject list written in the other order. -/
def paidStatus (o : Order) : Bool :=
  let st := lowerStr o.status
  let ok := ["paid", "captured", "shipped", "fulfilled"].contains st
  let ng := ["cancelled", "canceled", "refunded"].contains st
  ok && !ng

/-- The paid determination as the specification words it (for claim C4):
an explicit status in the paid-like vocabulary *paid, captured, authorized,
settled, fulfilled, shipped* with no cancellation/refund indicator. -/
def specPaidLike (o : Order) : Bool :=
  let st := lowerStr o.status
  (["paid", "captured", "authorized", "settled", "fulfilled", "shipped"].contains st)
    && !(["canceled", "cancelled", "refunded"].contains st)

/-- `isWeekPass` (part_003 lines 125-129): the order's extracted item ids
contain the configured week-pass product id. An unset or empty id never
matches because the extracted list holds only nonempty strings. -/
def isWeekPass (wkId : Option String) (o : Order) : Bool :=
  match wkId with
  | some i => (extractPurchasedSkus o).contains i
  | none => false

/-! ## Order fetch with fallback (src/unnamed/part_002 lines 83-106,
part_003 lines 101-123) -/

/-- An axios failure as the source observes it: `e?.response?.status`,
which is absent for pure transport failures. -/
structure AxiosErr where
  status : Option Nat
deriving DecidableEq, Repr

/-- The shape of the `/orders?order_number=...` response body the source
probes: an object with an `orders` array, a bare array, or anything else. -/
inductive NumberLookup
  | withOrders (orders : List Order)
  | bareArray (orders : List Order)
  | other
deriving DecidableEq, Repr

/-- The failures `fetchStoresOrder` can propagate: the re-thrown axios
error (carrying its response status) or the constructed
`Error("Order not found")` with `err.status = 404`. -/
inductive FetchErr
  | transport (status : Option Nat)
  | notFound (status : Nat)
deriving DecidableEq, Repr

/-- `fetchStoresOrder` (part_002 lines 83-106; `fetchOrder` in part_003 is
identical): try `/orders/{id}`; re-throw any non-404 failure; on 404 fall
back to `/orders?order_number=...`, taking the first entry of `data.orders`
or of a bare array, else throw a 404 "Order not found" error. The two
HTTP outcomes are passed in as oracles. -/
def fetchStoresOrder (byId : Except AxiosErr Order)
    (byNumber : Except AxiosErr NumberLookup) : Except FetchErr Order :=
  match byId with
  | .ok data => .ok data
  | .error e =>
    if e.status ≠ some 404 then .error (.transport e.status)
    else
      match byNumber with
      | .error e2 => .error (.transport e2.status)
      | .ok (.withOrders (o :: _)) => .ok o
      | .ok (.bareArray (o :: _)) => .ok o
      | .ok _ => .error (.notFound 404)

/-! ## The multi-plan variant (src/unnamed/part_002): registration and
question flows -/

namespace V2

/-- The three plan kinds of the 550/1650/3300 variant. -/
inductive PlanType
  | oneShot
  | dayPass
  | subscription
deriving DecidableEq, Repr

/-- Product-id configuration: `ONE_SHOT_PRODUCT_ID`, `DAYPASS_PRODUCT_ID`,
`SUBSCRIPTION_PRODUCT_ID` (each possibly unset). -/
structure Cfg where
  oneShotId : Option String
  dayPassId : Option String
  subscriptionId : Option String
deriving DecidableEq, Repr

/-- `X && purchasedSkus.includes(X)` for an env-var product id `X`
(unset or empty ids are falsy). -/
def idMatches (id : Option String) (skus : List String) : Bool :=
  match id with
  | some i => (i ≠ "" : Bool) && skus.contains i
  | none => false

/-- `detectPlanType` (part_002 lines 129-135): match the product ids in
order, defaulting to the one-shot plan. -/
def detectPlanType (cfg : Cfg) (skus : List String) : PlanType :=
  if idMatches cfg.oneShotId skus then .oneShot
  else if idMatches cfg.dayPassId skus then .dayPass
  else if idMatches cfg.subscriptionId skus then .subscription
  else .oneShot

/-- The entitlement record stored under `entitlement:{userId}`:
`{ type, orderId, grantedAt, used }` plus `expiresAt` for day passes. -/
structure Ent where
  type : PlanType
  orderId : String
  grantedAt : Nat
  used : Bool
  expiresAt : Option Nat
deriving DecidableEq, Repr

/-- The Redis state one user's flows touch: that user's entitlement slot
and the global `used_order:{orderId}` flags (a set of order ids).
The `last_plan:{userId}` key is written but never read and is omitted. -/
structure St where
  ent : Option Ent
  usedOrders : List String
deriving DecidableEq, Repr

/-- The distinct reply texts the part_002 handlers send. -/
inductive Msg
  | purchaseGuide
  | orderAlreadyUsed
  | registerError
  | notPaid
  | registered (plan : PlanType)
  | expiredGuide
  | subCheckFail
  | subInactive
  | repurchase
  | generated (answer : String)
  | oneShotClosing
  | dayPassNote (hoursLeft : Nat)
deriving DecidableEq, Repr

/-- `handleOrderRegistrationFlow` (part_002 lines 218-264). The payment
verification outcome is the order-fetch oracle: `verifyPayment` is
`isPaid` applied to the fetched order, and any throw lands in the catch
block (`registerError`). -/
def handleOrderRegistrationFlow (cfg : Cfg) (now : Nat)
    (fetchRes : Except FetchErr Order) (st : St) (orderId : String) :
    List Msg × St :=
  if st.usedOrders.contains orderId then ([.orderAlreadyUsed], st)
  else
    match fetchRes with
    | .error _ => ([.registerError], st)
    | .ok order =>
      if !isPaid order then ([.notPaid], st)
      else
        let pt := detectPlanType cfg (extractPurchasedSkus order)
        let ent : Ent :=
          { type := pt, orderId := orderId, grantedAt := now, used := false,
            expiresAt := if pt = .dayPass then some (now + 24 * 60 * 60 * 1000) else none }
        ([.registered pt], { st with ent := some ent })

/-- `ent.expiresAt && Date.now() > ent.expiresAt` (part_002 line 278):
the stored number must be truthy (nonzero) and strictly below `now`. -/
def entExpired (ent : Ent) (now : Nat) : Bool :=
  match ent.expiresAt with
  | some e => (e ≠ 0 : Bool) && (e < now : Bool)
  | none => false

/-- The answer-producing tail of `handleQuestionFlow` (part_002 lines
308-322): send the generated fortune, then the one-shot lock-in (marking
`used_order` and the entitlement's `used` flag) or the day-pass
hours-remaining note. -/
def answerPhase (now : Nat) (answer : String) (st : St) (ent : Ent) :
    List Msg × St :=
  if ent.type = .oneShot then
    ([.generated answer, .oneShotClosing],
      { st with usedOrders := ent.orderId :: st.usedOrders,
                ent := some { ent with used := true } })
  else if ent.type = .dayPass then
    ([.generated answer,
      .dayPassNote (((ent.expiresAt.getD 0 - now) + (60 * 60 * 1000 - 1)) / (60 * 60 * 1000))], st)
  else ([.generated answer], st)

/-- The one-shot reuse guard of `handleQuestionFlow` (part_002 lines
299-306): an already-used one-shot order yields the repurchase reply. -/
def oneShotGate (now : Nat) (answer : String) (st : St) (ent : Ent) :
    List Msg × St :=
  if ent.type = .oneShot && (st.usedOrders.contains ent.orderId || ent.used) then
    ([.repurchase], st)
  else answerPhase now answer st ent

/-- `handleQuestionFlow` (part_002 lines 269-323). `subCheck` is the
outcome of the per-question `verifyPayment` call for subscriptions
(`.error` models a throw in that external check); `answer` is the text
the completion call would return. -/
def handleQuestionFlow (now : Nat) (subCheck : Except Unit Bool)
    (answer : String) (st : St) : List Msg × St :=
  match st.ent with
  | none => ([.purchaseGuide], st)
  | some ent =>
    if entExpired ent now then ([.expiredGuide], st)
    else if ent.type = .subscription then
      match subCheck with
      | .error _ => ([.subCheckFail], st)
      | .ok true => oneShotGate now answer st ent
      | .ok false => ([.subInactive], st)
    else oneShotGate now answer st ent

end V2

/-! ## The week-pass variant (src/unnamed/part_003): registration with
owner binding, and the question flow -/

namespace V3

/-- The entitlement stored under `wk:ent:{uid}`: `{ orderId, grantedAt,
expiresAt }`. -/
structure EntW where
  orderId : String
  grantedAt : Nat
  expiresAt : Nat
deriving DecidableEq, Repr

/-- The Redis state of the week-pass variant: entitlements keyed by user
(`wk:ent:*`), order owners keyed by order id (`wk:owner:*`, the
anti-sharing binding) and the set of users recently shown the purchase
guide (`wk:guide:*`). Association lists model the keyspace; a `set` is a
prepend, so `lookup` sees the latest write. -/
structure StW where
  ents : List (String × EntW)
  owners : List (String × String)
  guided : List String
deriving DecidableEq, Repr

/-- The distinct reply texts the part_003 handlers send. -/
inductive MsgW
  | registerErrorW
  | notPaidW
  | notWeekPassW
  | ownedByOther
  | grantedW
  | guideW
  | expiredGuideW
  | generatedW (answer : String)
deriving DecidableEq, Repr

/-- `handleRegister` (part_003 lines 163-195): fetch the order (oracle),
require the paid status and the week-pass product, reject an order owned
by a *different* user (`owner && owner !== userId`), then grant a 7-day
pass and bind the order to this user. Any throw lands in the catch block. -/
def handleRegister (now : Nat) (fetchRes : Except FetchErr Order)
    (wkId : Option String) (st : StW) (userId orderId : String) :
    List MsgW × StW :=
  match fetchRes with
  | .error _ => ([.registerErrorW], st)
  | .ok order =>
    if !paidStatus order then ([.notPaidW], st)
    else if !isWeekPass wkId order then ([.notWeekPassW], st)
    else
      let owner := st.owners.lookup orderId
      if (match owner with
          | some o => (o ≠ "" : Bool) && (o ≠ userId : Bool)
          | none => false) then
        ([.ownedByOther], st)
      else
        let ent : EntW :=
          { orderId := orderId, grantedAt := now,
            expiresAt := now + 7 * 24 * 60 * 60 * 1000 }
        ([.grantedW],
          { st with ents := (userId, ent) :: st.ents,
                    owners := (orderId, userId) :: st.owners })

/-- `handleQuestion` (part_003 lines 198-215): no entitlement gives the
guide at most once per throttle window; a past expiry gives the
expired-plus-purchase-guide reply; otherwise the generated answer. -/
def handleQuestion (now : Nat) (answer : String) (st : StW)
    (userId : String) : List MsgW × StW :=
  match st.ents.lookup userId with
  | none =>
    if st.guided.contains userId then ([], st)
    else ([.guideW], { st with guided := userId :: st.guided })
  | some ent =>
    if ent.expiresAt < now then ([.expiredGuideW], st)
    else ([.generatedW answer], st)

end V3

/-! ## The conversation-memory chat variants (src/index.js lines 339-520
and 522-640): history bound, reply truncation, fallbacks -/

namespace MemBot

/-- A conversation turn: `{role, content}`. -/
inductive Role
  | user
  | assistant
deriving DecidableEq, Repr

/-- One stored history entry. -/
structure Turn where
  role : Role
  content : String
deriving DecidableEq, Repr

/-- `const MAX_TURNS = 12` (src/index.js line 540). -/
def MAX_TURNS : Nat := 12

/-- `while (hist.length > MAX_TURNS) hist.shift()` (src/index.js line
581): repeatedly remove the oldest entry, i.e. drop the first
`length - MAX_TURNS` entries. -/
def trimTurns (l : List Turn) : List Turn :=
  l.drop (l.length - MAX_TURNS)

/-- The history update one handled message performs (src/index.js lines
579-588): push the user turn, trim, then push the assistant turn; the
mutated array is what `sessions.set` persists. -/
def historyStep (hist : List Turn) (text reply : String) : List Turn :=
  trimTurns (hist ++ [⟨.user, text⟩]) ++ [⟨.assistant, reply⟩]

/-- The stored history after a sequence of (inbound text, produced reply)
messages, starting from the empty session. -/
def runHistory (msgs : List (String × String)) : List Turn :=
  msgs.foldl (fun h p => historyStep h p.1 p.2) []

/-- The full turn sequence a message run appends, before any eviction. -/
def fullTurns (msgs : List (String × String)) : List Turn :=
  msgs.foldl (fun acc p => acc ++ [⟨.user, p.1⟩, ⟨.assistant, p.2⟩]) []

/-- `reply.slice(0, 4900)` (src/index.js lines 417 and 590): the text
actually sent to the messaging platform from the memory-chat handlers. -/
def sentText (reply : String) : String :=
  ⟨reply.data.take 4900⟩

/-- `fallbackReply` (src/index.js lines 635-637): returns the empty
string. -/
def fallbackReply : String := ""

/-- JavaScript `a || b` where `a` is a string-or-null completion result:
null and the empty string both fall through to `b`. -/
def jsOrText (a : Option String) (b : String) : String :=
  match a with
  | some s => if s = "" then b else s
  | none => b

/-- The reply text of the MAX_TURNS=12 handler (src/index.js line 586):
the completion result, or `fallbackReply()` when the completion call
failed or returned nothing. -/
def repliedText (llm : Option String) : String :=
  jsOrText llm fallbackReply

/-- `convoFallback` (src/index.js lines 508-516): if the most recent
assistant turn was a follow-up question (starts with the magnifier mark)
and the last turn is the user's, return the heading-structured template;
otherwise (the "initial" comment path) return the empty string. -/
def convoFallback (_topic detail : String) (history : List Turn) : String :=
  let lastQ := history.reverse.find? fun m =>
    m.role = Role.assistant && "🔎".data.isPrefixOf m.content.data
  let lastIsUser :=
    match history.getLast? with
    | some t => t.role = Role.user
    | none => false
  if lastQ.isSome && lastIsUser then
    "ありがとうございます。要点は「" ++ (if detail = "" then "詳細" else detail) ++
    "」ですね。\n\n【結論】焦らず整えるほど運気は素直に伸びます。\n【理由】足元を固めるほど、選択肢の質が上がる流れ。\n【アクション】今日1つだけ、小さな行動（連絡・整理・メモ化）を終わらせましょう。\n【注意点】情報の取り込み過ぎ。判断は翌朝に回すと冴えます。\n【ひとこと励まし】今のペースで十分。丁寧さが未来の近道です。"
  else ""

end MemBot

/-! ## The access-code chat variant (src/index.js lines 1-190): the
outbound text of one handled event -/

namespace Auth

/-- `/^\d{9}$/.test(text)`: exactly nine ASCII digits. -/
def isNineDigits (t : String) : Bool :=
  t.length = 9 && t.data.all Char.isDigit

/-- Outcome of `consumeCodeForUser`. -/
inductive ConsumeOutcome
  | okConsumed
  | badFormat
  | notFoundCode
  | usedCode
deriving DecidableEq, Repr

/-- The reply text of the code branch (src/index.js lines 139-150). -/
def consumeReplyText : ConsumeOutcome → String
  | .okConsumed =>
      "認証が完了しました。ありがとうございます。\nこれ以降は「占って」「恋愛占い」「仕事運」などお好きに話しかけてください。"
  | .badFormat => "9桁の数字のみを送ってください。"
  | .notFoundCode => "このコードは登録がありません。入力ミスがないかご確認ください。"
  | .usedCode => "このコードはすでに使用済みです。別のコードをご利用ください。"

/-- The unverified-user guidance (src/index.js lines 158-165). -/
def authGuideText : String :=
  "AI占いのご利用には認証が必要です。\n9桁の認証コードをこのトークに送信してください。\n（例）482913657"

/-- The text one handled event sends back (src/index.js lines 131-179):
the code-branch reply for nine-digit inputs, the guidance for unverified
users, and otherwise the completion result `ai` — sent unmodified, with
no length cap (line 178). -/
def outboundOfEvent (text : String) (consumeRes : ConsumeOutcome)
    (verified : Bool) (ai : String) : String :=
  if isNineDigits text then consumeReplyText consumeRes
  else if !verified then authGuideText
  else ai

end Auth

/-! ## The signed access-code variant (src/unnamed/part_001 lines 1-257):
HMAC-SHA256 signed codes, the /mint issuer and verifySignedCode -/

namespace Signed

/-- 2^32, the word modulus of SHA-256. -/
def w32 : Nat := 4294967296

/-- Right rotation of a 32-bit word (1 ≤ n ≤ 31, x < 2^32). -/
def rotr (n x : Nat) : Nat :=
  ((x >>> n) ||| (x <<< (32 - n))) % w32

/-- The 64 SHA-256 round constants. -/
def shaK : List Nat :=
  [1116352408, 1899447441, 3049323471, 3921009573, 961987163,
   1508970993, 2453635748, 2870763221, 3624381080, 310598401,
   607225278, 1426881987, 1925078388, 2162078206, 2614888103,
   3248222580, 3835390401, 4022224774, 264347078, 604807628,
   770255983, 1249150122, 1555081692, 1996064986, 2554220882,
   2821834349, 2952996808, 3210313671, 3336571891, 3584528711,
   113926993, 338241895, 666307205, 773529912, 1294757372,
   1396182291, 1695183700, 1986661051, 2177026350, 2456956037,
   2730485921, 2820302411, 3259730800, 3345764771, 3516065817,
   3600352804, 4094571909, 275423344, 430227734, 506948616,
   659060556, 883997877, 958139571, 1322822218, 1537002063,
   1747873779, 1955562222, 2024104815, 2227730452, 2361852424,
   2428436474, 2756734187, 3204031479, 3329325298]

/-- The initial SHA-256 hash state. -/
def shaInit : List Nat :=
  [1779033703, 3144134277, 1013904242, 2773480762,
   1359893119, 2600822924, 528734635, 1541459225]

/-- Big-endian byte encoding of `v` in `n` bytes. -/
def bytesBE (n v : Nat) : List Nat :=
  (List.range n).map fun i => (v >>> (8 * (n - 1 - i))) % 256

/-- Big-endian word from a byte list. -/
def wordBE (bs : List Nat) : Nat :=
  bs.foldl (fun acc b => acc * 256 + b) 0

/-- SHA-256 message padding: append 0x80, zero-fill to 56 mod 64, then
the 64-bit big-endian bit length. -/
def padMessage (msg : List Nat) : List Nat :=
  let zeros := (64 - (msg.length + 9) % 64) % 64
  msg ++ [0x80] ++ List.replicate zeros 0 ++ bytesBE 8 (8 * msg.length)

/-- Split into 64-byte blocks; the fuel argument makes the recursion
structural (any fuel at least the block count gives the same result). -/
def blocksGo : Nat → List Nat → List (List Nat)
  | 0, _ => []
  | _, [] => []
  | fuel + 1, l => l.take 64 :: blocksGo fuel (l.drop 64)

/-- The 64-byte blocks of a padded message. -/
def blocksOf (l : List Nat) : List (List Nat) :=
  blocksGo l.length l

/-- The 16 initial schedule words of a block. -/
def blockWords (b : List Nat) : List Nat :=
  (List.range 16).map fun i => wordBE ((b.drop (4 * i)).take 4)

/-- Extend the message schedule by `n` further words. -/
def scheduleGo : Nat → List Nat → List Nat
  | 0, ws => ws
  | n + 1, ws =>
    let i := ws.length
    let x15 := ws.getD (i - 15) 0
    let x2 := ws.getD (i - 2) 0
    let s0 := (rotr 7 x15) ^^^ (rotr 18 x15) ^^^ (x15 >>> 3)
    let s1 := (rotr 17 x2) ^^^ (rotr 19 x2) ^^^ (x2 >>> 10)
    scheduleGo n (ws ++ [(ws.getD (i - 16) 0 + s0 + ws.getD (i - 7) 0 + s1) % w32])

/-- One SHA-256 round on the eight-word working state. -/
def shaRound (k w : Nat) : List Nat → List Nat
  | [a, b, c, d, e, f, g, h] =>
    let S1 := (rotr 6 e) ^^^ (rotr 11 e) ^^^ (rotr 25 e)
    let ch := (e &&& f) ^^^ ((e ^^^ (w32 - 1)) &&& g)
    let t1 := (h + S1 + ch + k + w) % w32
    let S0 := (rotr 2 a) ^^^ (rotr 13 a) ^^^ (rotr 22 a)
    let mj := (a &&& b) ^^^ (a &&& c) ^^^ (b &&& c)
    let t2 := (S0 + mj) % w32
    [(t1 + t2) % w32, a, b, c, (d + t1) % w32, e, f, g]
  | s => s

/-- Compress one 64-byte block into the running hash state. -/
def compressBlock (hs block : List Nat) : List Nat :=
  let ws := scheduleGo 48 (blockWords block)
  let fin := (shaK.zip ws).foldl (fun s kw => shaRound kw.1 kw.2 s) hs
  (hs.zip fin).map fun p => (p.1 + p.2) % w32

/-- SHA-256 of a byte list, as 32 bytes. -/
def sha256 (msg : List Nat) : List Nat :=
  (((blocksOf (padMessage msg)).foldl compressBlock shaInit).map (bytesBE 4)).flatten

/-- HMAC-SHA256 of a message under a key (both byte lists). -/
def hmacSha256 (key msg : List Nat) : List Nat :=
  let k0 := if key.length > 64 then sha256 key else key
  let kp := k0 ++ List.replicate (64 - k0.length) 0
  sha256 ((kp.map (· ^^^ 0x5c)) ++ sha256 ((kp.map (· ^^^ 0x36)) ++ msg))

/-- Lowercase hex digit. -/
def hexDigit (n : Nat) : Char :=
  if n < 10 then Char.ofNat (48 + n) else Char.ofNat (87 + n)

/-- Lowercase hex string of a byte list. -/
def bytesToHex (bs : List Nat) : String :=
  ⟨(bs.map fun b => [hexDigit (b / 16), hexDigit (b % 16)]).flatten⟩

/-- The bytes of an ASCII string. -/
def strBytes (s : String) : List Nat :=
  s.data.map Char.toNat

/-- `signBase` (part_001 lines 105-108): the hex HMAC-SHA256 of the base
under `ACCESS_CODE_SECRET` (64 hex characters). -/
def signBase (secret base : String) : String :=
  bytesToHex (hmacSha256 (strBytes secret) (strBytes base))

/-- The character class `[A-Z0-9]` under the regex's `i` flag. -/
def isAlnumI (c : Char) : Bool :=
  c.isDigit || (65 ≤ c.toNat && c.toNat ≤ 90) || (97 ≤ c.toNat && c.toNat ≤ 122)

/-- The character class `[a-f0-9]` under the regex's `i` flag. -/
def isHexI (c : Char) : Bool :=
  c.isDigit || (97 ≤ c.toNat && c.toNat ≤ 102) || (65 ≤ c.toNat && c.toNat ≤ 70)

/-- First `n` characters of a string (`String.slice(0, n)` on code
points). -/
def strTake (s : String) (n : Nat) : String :=
  ⟨s.data.take n⟩

/-- Split a character list at `-` separators (the semantics of
`String.splitOn "-"` for one-character separators). -/
def splitDash (l : List Char) : List (List Char) :=
  l.foldr
    (fun c acc =>
      if c = '-' then [] :: acc
      else
        match acc with
        | [] => [[c]]
        | g :: gs => (c :: g) :: gs)
    [[]]

/-- The match `/^([A-Z0-9]+-)?([A-Z0-9]{8,})-([a-f0-9]{8})$/i` of
`verifySignedCode`, returning the base capture and the lowercased
signature capture. Because neither class admits `-`, the regex matches
exactly the strings with one or two `-`-separated leading alphanumeric
groups followed by eight hex characters, which splitting at `-`
recovers. -/
def matchSigned (code : String) : Option (String × String) :=
  match splitDash code.data with
  | [b, h] =>
    if b.all isAlnumI && b.length ≥ 8 && h.all isHexI && h.length = 8 then
      some (⟨b⟩, lowerStr ⟨h⟩)
    else none
  | [p, b, h] =>
    if p.length ≥ 1 && p.all isAlnumI && b.all isAlnumI && b.length ≥ 8
        && h.all isHexI && h.length = 8 then
      some (⟨b⟩, lowerStr ⟨h⟩)
    else none
  | _ => none

/-- `verifySignedCode` (part_001 lines 109-117): parse the displayed code,
recompute the signature over the captured base, and compare its first
eight hex characters with the signature part. -/
def verifySignedCode (secret code : String) : Bool :=
  match matchSigned code with
  | none => false
  | some (base, sig8) => strTake (signBase secret base) 8 = sig8

/-- One code as the `/mint` handler emits it (part_001 lines 231-234):
the 12-hex-character base is signed in lowercase but displayed
uppercased, with the first eight signature characters appended. -/
def mintCode (secret pfx base : String) : String :=
  (if pfx ≠ "" then pfx ++ "-" else "") ++ upperStr base ++ "-"
    ++ strTake (signBase secret base) 8

end Signed

/-! ## Claims -/

/-- Claim C4, counterexample: the specification's paid-like vocabulary
includes `authorized`, but `isPaid` rejects an order whose explicit status
is `authorized` even though no cancellation/refund indicator is present. -/
theorem c4_isPaid_counterexample :
    specPaidLike ⟨"authorized", []⟩ = true ∧ isPaid ⟨"authorized", []⟩ = false := by
  decide

/-- Claim C4 (corrected): the paid determination returns true exactly when
the lowercased explicit status is one of `paid`, `captured`, `shipped`,
`fulfilled` (the code's vocabulary omits the specification's `authorized`
and `settled`), and it returns false for every order whose status is
`canceled`/`cancelled`/`refunded`. -/
theorem c4_isPaid_vocabulary :
    (∀ o : Order, isPaid o = true ↔
        lowerStr o.status ∈ (["paid", "captured", "shipped", "fulfilled"] : List String)) ∧
    (∀ o : Order,
        lowerStr o.status ∈ (["canceled", "cancelled", "refunded"] : List String) →
        isPaid o = false) := by
  constructor
  · intro o
    constructor
    · intro h
      simp only [isPaid, Bool.and_eq_true] at h
      exact List.mem_of_elem_eq_true h.1
    · intro h
      simp only [List.mem_cons, List.not_mem_nil, or_false] at h
      rcases h with h | h | h | h <;> simp only [isPaid, h] <;> decide
  · intro o h
    simp only [List.mem_cons, List.not_mem_nil, or_false] at h
    rcases h with h | h | h <;> simp only [isPaid, h] <;> decide

/-- Claim C6 (confirmed): the order fetch returns the by-id result when
that lookup succeeds (the fallback is not consulted); a non-404 by-id
failure propagates unchanged as the re-thrown transport failure, a
constructor distinct from the not-found error (again without consulting
the fallback); and after a 404 the order-number lookup's first entry is
returned, with an empty result raising the 404 not-found error. -/
theorem c6_fetch_fallback :
    (∀ (o : Order) (b b2 : Except AxiosErr NumberLookup),
        fetchStoresOrder (.ok o) b = .ok o ∧
        fetchStoresOrder (.ok o) b = fetchStoresOrder (.ok o) b2) ∧
    (∀ (e : AxiosErr) (b b2 : Except AxiosErr NumberLookup), e.status ≠ some 404 →
        fetchStoresOrder (.error e) b = .error (.transport e.status) ∧
        (∀ n, FetchErr.transport e.status ≠ FetchErr.notFound n) ∧
        fetchStoresOrder (.error e) b = fetchStoresOrder (.error e) b2) ∧
    (∀ (o : Order) (rest : List Order),
        fetchStoresOrder (.error ⟨some 404⟩) (.ok (.withOrders (o :: rest))) = .ok o ∧
        fetchStoresOrder (.error ⟨some 404⟩) (.ok (.bareArray (o :: rest))) = .ok o) ∧
    (fetchStoresOrder (.error ⟨some 404⟩) (.ok (.withOrders [])) = .error (.notFound 404) ∧
     fetchStoresOrder (.error ⟨some 404⟩) (.ok (.bareArray [])) = .error (.notFound 404) ∧
     fetchStoresOrder (.error ⟨some 404⟩) (.ok .other) = .error (.notFound 404)) := by
  refine ⟨fun o b b2 => ⟨rfl, rfl⟩, fun e b b2 h => ⟨?_, fun n => by simp, ?_⟩,
    fun o rest => ⟨rfl, rfl⟩, rfl, rfl, rfl⟩
  · simp [fetchStoresOrder, h]
  · simp [fetchStoresOrder, h]

/-- Witness for C6: a 500 response on the by-id lookup propagates as a
transport failure without consulting the fallback. -/
theorem c6_fetch_fallback_witness :
    fetchStoresOrder (.error ⟨some 500⟩) (.ok .other)
      = .error (.transport (some 500)) :=
  (c6_fetch_fallback.2.1 ⟨some 500⟩ (.ok .other) (.ok .other) (by decide)).1

/-- Claim C1 (confirmed): redeeming a paid one-shot order grants the trial
entitlement; the first chat attempt produces the generated reply and marks
both the `used_order` flag and the entitlement's `used` flag; and from the
resulting state every further chat attempt (with any clock, subscription
oracle and completion text) yields the repurchase reply and leaves the
state unchanged, so no second generated reply can occur before a new
redemption. -/
theorem c1_trial_single_reply
    (cfg : V2.Cfg) (st : V2.St) (orderId : String) (order : Order) (now : Nat)
    (hUnused : st.usedOrders.contains orderId = false)
    (hPaid : isPaid order = true)
    (hPlan : V2.detectPlanType cfg (extractPurchasedSkus order) = V2.PlanType.oneShot) :
    (V2.handleOrderRegistrationFlow cfg now (.ok order) st orderId).1
        = [.registered .oneShot] ∧
    ∀ n1 sub1 ans1,
      V2.handleQuestionFlow n1 sub1 ans1
          (V2.handleOrderRegistrationFlow cfg now (.ok order) st orderId).2
        = ([.generated ans1, .oneShotClosing],
           ⟨some ⟨.oneShot, orderId, now, true, none⟩, orderId :: st.usedOrders⟩) ∧
      ∀ n2 sub2 ans2,
        V2.handleQuestionFlow n2 sub2 ans2
            ⟨some ⟨.oneShot, orderId, now, true, none⟩, orderId :: st.usedOrders⟩
          = ([.repurchase],
             ⟨some ⟨.oneShot, orderId, now, true, none⟩, orderId :: st.usedOrders⟩) := by
  have hmem : orderId ∉ st.usedOrders := by simpa using hUnused
  have hreg : V2.handleOrderRegistrationFlow cfg now (.ok order) st orderId
      = ([.registered .oneShot],
         ⟨some ⟨.oneShot, orderId, now, false, none⟩, st.usedOrders⟩) := by
    simp [V2.handleOrderRegistrationFlow, hmem, hPaid, hPlan]
  refine ⟨by rw [hreg], fun n1 sub1 ans1 => ⟨?_, fun n2 sub2 ans2 => ?_⟩⟩
  · rw [hreg]
    simp [V2.handleQuestionFlow, V2.entExpired, V2.oneShotGate, V2.answerPhase, hmem]
  · simp [V2.handleQuestionFlow, V2.entExpired, V2.oneShotGate]

/-- Witness for C1: a concrete paid one-shot order, redeemed into a fresh
state, produces one generated reply and then only repurchase replies. -/
theorem c1_trial_single_reply_witness :
    (V2.handleOrderRegistrationFlow ⟨some "one", none, none⟩ 5
        (.ok ⟨"paid", [⟨some "one", none, none⟩]⟩) ⟨none, []⟩ "ST1").1
      = [.registered .oneShot] ∧
    V2.handleQuestionFlow 6 (.ok true) "fortune"
        (V2.handleOrderRegistrationFlow ⟨some "one", none, none⟩ 5
          (.ok ⟨"paid", [⟨some "one", none, none⟩]⟩) ⟨none, []⟩ "ST1").2
      = ([.generated "fortune", .oneShotClosing],
         ⟨some ⟨.oneShot, "ST1", 5, true, none⟩, ["ST1"]⟩) ∧
    V2.handleQuestionFlow 7 (.ok true) "again"
        ⟨some ⟨.oneShot, "ST1", 5, true, none⟩, ["ST1"]⟩
      = ([.repurchase], ⟨some ⟨.oneShot, "ST1", 5, true, none⟩, ["ST1"]⟩) := by
  have h := c1_trial_single_reply ⟨some "one", none, none⟩ ⟨none, []⟩ "ST1"
    ⟨"paid", [⟨some "one", none, none⟩]⟩ 5 (by decide) (by decide) (by decide)
  exact ⟨h.1, (h.2 6 (.ok true) "fortune").1, ((h.2 6 (.ok true) "fortune").2 7 (.ok true) "again")⟩

/-- Claim C2, counterexample: in the week-pass variant an order identifier
already bound to an owner is happily re-redeemed by that same owner —
`handleRegister` re-grants a fresh 7-day pass instead of rejecting with
"already used", so a second redemption of the same order identifier
succeeds. -/
theorem c2_redemption_counterexample :
    (V3.handleRegister 10 (.ok ⟨"paid", [⟨some "wk", none, none⟩]⟩) (some "wk")
        ⟨[], [("ST1", "userA")], []⟩ "userA" "ST1").1 = [.grantedW] ∧
    (V3.handleRegister 10 (.ok ⟨"paid", [⟨some "wk", none, none⟩]⟩) (some "wk")
        ⟨[], [("ST1", "userA")], []⟩ "userA" "ST1").2.ents.lookup "userA"
      = some ⟨"ST1", 10, 604800010⟩ := by
  decide

/-- Claim C2 (corrected): an order marked used rejects every further
redemption attempt with the "already used" reply, and an order bound to a
*different* owner never grants anything to the requester (the state is
unchanged for every fetch outcome); but a re-redemption by the same owner
is accepted and refreshes the pass, not idempotently rejected. -/
theorem c2_no_cross_user_redemption :
    (∀ (cfg : V2.Cfg) (now : Nat) (fetchRes : Except FetchErr Order)
        (st : V2.St) (oid : String),
        st.usedOrders.contains oid = true →
        V2.handleOrderRegistrationFlow cfg now fetchRes st oid
          = ([.orderAlreadyUsed], st)) ∧
    (∀ (now : Nat) (fetchRes : Except FetchErr Order) (wkId : Option String)
        (st : V3.StW) (uid oid o : String),
        st.owners.lookup oid = some o → o ≠ "" → o ≠ uid →
        (V3.handleRegister now fetchRes wkId st uid oid).2 = st ∧
        V3.MsgW.grantedW ∉ (V3.handleRegister now fetchRes wkId st uid oid).1) := by
  constructor
  · intro cfg now fetchRes st oid h
    have hmem : oid ∈ st.usedOrders := by simpa using h
    simp [V2.handleOrderRegistrationFlow, hmem]
  · intro now fetchRes wkId st uid oid o ho hne hneu
    cases fetchRes with
    | error e => simp [V3.handleRegister]
    | ok order =>
      by_cases hp : paidStatus order
      · by_cases hw : isWeekPass wkId order
        · simp [V3.handleRegister, ho, hp, hw, hne, hneu]
        · simp [V3.handleRegister, hp, hw]
      · simp [V3.handleRegister, hp]

/-- Witness for C2 (corrected): a used order rejects re-redemption, and an
order owned by another user grants nothing. -/
theorem c2_no_cross_user_redemption_witness :
    V2.handleOrderRegistrationFlow ⟨none, none, none⟩ 0 (.error (.notFound 404))
        ⟨none, ["ST9"]⟩ "ST9" = ([.orderAlreadyUsed], ⟨none, ["ST9"]⟩) ∧
    (V3.handleRegister 0 (.ok ⟨"paid", [⟨some "wk", none, none⟩]⟩) (some "wk")
        ⟨[], [("ST1", "userA")], []⟩ "userB" "ST1").2
      = ⟨[], [("ST1", "userA")], []⟩ :=
  ⟨c2_no_cross_user_redemption.1 ⟨none, none, none⟩ 0 (.error (.notFound 404))
      ⟨none, ["ST9"]⟩ "ST9" (by decide),
   (c2_no_cross_user_redemption.2 0 (.ok ⟨"paid", [⟨some "wk", none, none⟩]⟩)
      (some "wk") ⟨[], [("ST1", "userA")], []⟩ "userB" "ST1" "userA"
      (by decide) (by decide) (by decide)).1⟩

/-- Claim C3 (confirmed): in both entitlement-carrying variants, a stored
entitlement whose (positive) expiry timestamp lies strictly before the
current time makes a chat attempt send the expired reply — whose source
text appends the purchase guide (`"有効期限が切れました。再度ご購入ください。" +
purchaseGuide()` in part_002, `... + guide()` in part_003) — with no
generated reply and no state change. Expiry timestamps written by the code
are `Date.now()` plus a positive span and are therefore nonzero. -/
theorem c3_expired_is_gated :
    (∀ (st : V2.St) (ent : V2.Ent) (e now : Nat) (sub : Except Unit Bool)
        (ans : String),
        st.ent = some ent → ent.expiresAt = some e → 0 < e → e < now →
        V2.handleQuestionFlow now sub ans st = ([.expiredGuide], st)) ∧
    (∀ (st : V3.StW) (uid : String) (ent : V3.EntW) (now : Nat) (ans : String),
        st.ents.lookup uid = some ent → ent.expiresAt < now →
        V3.handleQuestion now ans st uid = ([.expiredGuideW], st)) := by
  constructor
  · intro st ent e now sub ans hent hexp hpos hlt
    have hexpired : V2.entExpired ent now = true := by
      simp [V2.entExpired, hexp, hlt, hpos.ne']
    simp [V2.handleQuestionFlow, hent, hexpired]
  · intro st uid ent now ans hent hlt
    simp [V3.handleQuestion, hent, hlt]

/-- Witness for C3: concrete expired day-pass and week-pass entitlements
yield the expired reply. -/
theorem c3_expired_is_gated_witness :
    V2.handleQuestionFlow 100 (.ok true) "q"
        ⟨some ⟨.dayPass, "ST1", 1, false, some 50⟩, []⟩
      = ([.expiredGuide], ⟨some ⟨.dayPass, "ST1", 1, false, some 50⟩, []⟩) ∧
    V3.handleQuestion 100 "q" ⟨[("u", ⟨"ST2", 1, 50⟩)], [], []⟩ "u"
      = ([.expiredGuideW], ⟨[("u", ⟨"ST2", 1, 50⟩)], [], []⟩) :=
  ⟨c3_expired_is_gated.1 ⟨some ⟨.dayPass, "ST1", 1, false, some 50⟩, []⟩
      ⟨.dayPass, "ST1", 1, false, some 50⟩ 50 100 (.ok true) "q" rfl rfl
      (by decide) (by decide),
   c3_expired_is_gated.2 ⟨[("u", ⟨"ST2", 1, 50⟩)], [], []⟩ "u" ⟨"ST2", 1, 50⟩
      100 "q" (by decide) (by decide)⟩

/-- Claim C5 (confirmed): for a subscription entitlement (stored without
an expiry, as the code grants them) every chat attempt consults the
per-question payment re-verification before any reply: a throw in that
check sends the blocking "cannot verify" reply with no fortune text and no
state change, and a generated reply can occur only when the check returned
paid. -/
theorem c5_subscription_fails_closed
    (st : V2.St) (ent : V2.Ent)
    (hent : st.ent = some ent) (hty : ent.type = .subscription)
    (hexp : ent.expiresAt = none) :
    (∀ now ans, V2.handleQuestionFlow now (.error ()) ans st
        = ([.subCheckFail], st)) ∧
    (∀ now sub ans,
        V2.Msg.generated ans ∈ (V2.handleQuestionFlow now sub ans st).1 →
        sub = .ok true) := by
  have hexpired : ∀ now, V2.entExpired ent now = false := by
    intro now
    simp [V2.entExpired, hexp]
  constructor
  · intro now ans
    simp [V2.handleQuestionFlow, hent, hexpired, hty]
  · intro now sub ans h
    cases sub with
    | error u =>
      cases u
      simp [V2.handleQuestionFlow, hent, hexpired, hty] at h
    | ok b =>
      cases b
      · simp [V2.handleQuestionFlow, hent, hexpired, hty] at h
      · rfl

/-- Witness for C5: a concrete subscription state is blocked when the
re-verification throws. -/
theorem c5_subscription_fails_closed_witness :
    V2.handleQuestionFlow 3 (.error ()) "q"
        ⟨some ⟨.subscription, "ST1", 1, false, none⟩, []⟩
      = ([.subCheckFail], ⟨some ⟨.subscription, "ST1", 1, false, none⟩, []⟩) :=
  (c5_subscription_fails_closed ⟨some ⟨.subscription, "ST1", 1, false, none⟩, []⟩
      ⟨.subscription, "ST1", 1, false, none⟩ rfl rfl rfl).1 3 "q"

/-- The while-shift trim never leaves more than `MAX_TURNS` entries. -/
theorem memhist_trim_len (l : List MemBot.Turn) :
    (MemBot.trimTurns l).length ≤ MemBot.MAX_TURNS := by
  simp [MemBot.trimTurns]
  omega

/-- One handled message leaves at most `MAX_TURNS + 1` stored turns: the
assistant turn is pushed after the trim. -/
theorem memhist_step_len (h : List MemBot.Turn) (t r : String) :
    (MemBot.historyStep h t r).length ≤ MemBot.MAX_TURNS + 1 := by
  have := memhist_trim_len (h ++ [⟨.user, t⟩])
  simp only [MemBot.historyStep, List.length_append, List.length_cons,
    List.length_nil]
  omega

/-- One handled message keeps a suffix of the old history plus the two new
turns: eviction only removes from the front. -/
theorem memhist_step_suffix (h : List MemBot.Turn) (t r : String) :
    MemBot.historyStep h t r <:+ h ++ [⟨.user, t⟩, ⟨.assistant, r⟩] := by
  obtain ⟨p, hp⟩ := List.drop_suffix
    ((h ++ [(⟨.user, t⟩ : MemBot.Turn)]).length - MemBot.MAX_TURNS)
    (h ++ [(⟨.user, t⟩ : MemBot.Turn)])
  refine ⟨p, ?_⟩
  simp only [MemBot.historyStep, MemBot.trimTurns]
  rw [← List.append_assoc, hp]
  simp

/-- Folding message steps preserves the `MAX_TURNS + 1` bound. -/
theorem memhist_run_len_aux (msgs : List (String × String)) :
    ∀ h : List MemBot.Turn, h.length ≤ MemBot.MAX_TURNS + 1 →
      (msgs.foldl (fun h p => MemBot.historyStep h p.1 p.2) h).length
        ≤ MemBot.MAX_TURNS + 1 := by
  induction msgs with
  | nil => intro h hh; simpa using hh
  | cons m rest ih => intro h hh; exact ih _ (memhist_step_len h m.1 m.2)

/-- Folding message steps preserves being a suffix of the full sequence. -/
theorem memhist_run_suffix_aux (msgs : List (String × String)) :
    ∀ (h F : List MemBot.Turn), h <:+ F →
      (msgs.foldl (fun h p => MemBot.historyStep h p.1 p.2) h) <:+
        (msgs.foldl (fun acc p => acc ++ [⟨.user, p.1⟩, ⟨.assistant, p.2⟩]) F) := by
  induction msgs with
  | nil => intro h F hF; simpa using hF
  | cons m rest ih =>
    intro h F hF
    apply ih
    obtain ⟨p, hp⟩ := hF
    exact (memhist_step_suffix h m.1 m.2).trans ⟨p, by rw [← List.append_assoc, hp]⟩

/-- Claim C7, counterexample: with `MAX_TURNS = 12`, seven handled
messages starting from an empty session leave 13 stored turns — the
assistant turn is appended after the trim, so the stored history exceeds
the configured maximum. -/
theorem c7_history_bound_counterexample :
    (MemBot.runHistory (List.replicate 7 ("q", "a"))).length = 13 ∧
    MemBot.MAX_TURNS < (MemBot.runHistory (List.replicate 7 ("q", "a"))).length := by
  decide

/-- Claim C7 (corrected): the stored history never exceeds
`MAX_TURNS + 1` (the post-trim assistant push can exceed the configured
maximum by exactly one), and eviction is oldest-first: the stored history
is always a contiguous suffix of the full turn sequence, preserving the
order of the remaining turns. -/
theorem c7_history_bound_and_fifo :
    ∀ msgs : List (String × String),
      (MemBot.runHistory msgs).length ≤ MemBot.MAX_TURNS + 1 ∧
      MemBot.runHistory msgs <:+ MemBot.fullTurns msgs := by
  intro msgs
  exact ⟨memhist_run_len_aux msgs [] (by simp),
    memhist_run_suffix_aux msgs [] [] ⟨[], rfl⟩⟩

/-- Claim C8, counterexample: the access-code variant's chat path
(src/index.js line 178) sends the completion result with no length cap: a
4901-character completion goes out with 4901 characters, above the
4900-character cap the other variants apply. -/
theorem c8_reply_cap_counterexample :
    (Auth.outboundOfEvent "うらなって" .okConsumed true
        ⟨List.replicate 4901 'a'⟩).data.length = 4901 ∧
    4900 < (Auth.outboundOfEvent "うらなって" .okConsumed true
        ⟨List.replicate 4901 'a'⟩).data.length := by
  have h9 : Auth.isNineDigits "うらなって" = false := by decide
  have h : Auth.outboundOfEvent "うらなって" .okConsumed true
      ⟨List.replicate 4901 'a'⟩ = ⟨List.replicate 4901 'a'⟩ := by
    simp [Auth.outboundOfEvent, h9]
  rw [h]
  constructor
  · show (List.replicate 4901 'a').length = 4901
    rw [List.length_replicate]
  · show 4900 < (List.replicate 4901 'a').length
    rw [List.length_replicate]
    omega

/-- Claim C8 (corrected): the conversation-memory handlers send
`reply.slice(0, 4900)` — at most 4900 characters, always a prefix of the
completion result, and the identity on results within the cap — while the
access-code variant's chat path sends the completion text unmodified. -/
theorem c8_reply_cap :
    (∀ s : String,
        (MemBot.sentText s).data.length ≤ 4900 ∧
        (MemBot.sentText s).data <+: s.data ∧
        (s.data.length ≤ 4900 → MemBot.sentText s = s)) ∧
    (∀ (t ai : String) (cr : Auth.ConsumeOutcome),
        Auth.isNineDigits t = false →
        Auth.outboundOfEvent t cr true ai = ai) := by
  constructor
  · intro s
    refine ⟨?_, ?_, ?_⟩
    · show (s.data.take 4900).length ≤ 4900
      simp [List.length_take]
    · show s.data.take 4900 <+: s.data
      exact List.take_prefix _ _
    · intro hle
      cases s with
      | mk d =>
        have hd : d.take 4900 = d := List.take_of_length_le hle
        show (⟨d.take 4900⟩ : String) = ⟨d⟩
        rw [hd]
  · intro t ai cr h
    simp [Auth.outboundOfEvent, h]

/-- Witness for C8 (corrected): a short reply passes through the slice
unchanged, and the chat path of the access-code variant echoes the
completion text. -/
theorem c8_reply_cap_witness :
    MemBot.sentText "abc" = "abc" ∧
    Auth.outboundOfEvent "占って" .okConsumed true "result" = "result" :=
  ⟨(c8_reply_cap.1 "abc").2.2 (by decide),
   c8_reply_cap.2 "占って" "result" .okConsumed (by decide)⟩

/-- Claim C9 (code bug): on a completion failure the user does *not*
receive a heading-structured fallback — `fallbackReply` is the empty
string, so the handled event replies with an empty message, and
`convoFallback` likewise returns the empty string for any history without
a preceding follow-up question (its own comment promises a template
there). -/
theorem c9_fallback_empty :
    MemBot.fallbackReply = "" ∧
    MemBot.repliedText none = "" ∧
    MemBot.sentText (MemBot.repliedText none) = "" ∧
    MemBot.convoFallback "総合" "占って" [⟨.user, "占って"⟩] = "" := by
  decide

set_option maxRecDepth 10000 in
/-- A minted code whose base happens to contain only decimal digits does
round-trip: uppercasing such a base is the identity, so `verifySignedCode`
recomputes the same HMAC. This pins down the defect to the case change. -/
theorem mint_digit_base_roundtrips :
    Signed.verifySignedCode "secret" (Signed.mintCode "secret" "" "123456789012")
      = true := by
  decide

set_option maxRecDepth 10000 in
/-- Claim C10 (code bug): the signed-code round trip fails. `/mint` signs
the lowercase 12-hex-character base but displays it uppercased, while
`verifySignedCode` recomputes the HMAC over the uppercased base it
captures; for any base containing a hex letter the two signatures differ,
so the minted code is rejected. Concretely, under secret `"secret"` the
base `"ab12cd34ef56"` mints as `"AB12CD34EF56-8ae39096"`, which
`verifySignedCode` rejects. -/
theorem c10_mint_roundtrip_fails :
    Signed.mintCode "secret" "" "ab12cd34ef56" = "AB12CD34EF56-8ae39096" ∧
    Signed.verifySignedCode "secret" "AB12CD34EF56-8ae39096" = false := by
  constructor
  · decide
  · decide

/-- Witness for C4 (corrected): a paid order is accepted and a refunded
order is rejected. -/
theorem c4_isPaid_vocabulary_witness :
    isPaid ⟨"paid", []⟩ = true ∧ isPaid ⟨"refunded", []⟩ = false :=
  ⟨(c4_isPaid_vocabulary.1 ⟨"paid", []⟩).mpr (by decide),
   c4_isPaid_vocabulary.2 ⟨"refunded", []⟩ (by decide)⟩
